import Mathlib

/-!
Verification of the VibeFI banking-ticket classifier core
(`src/classifier.js`, `src/ai-helper.js`) against its specification.

The JavaScript source is shallowly embedded: tickets and results are
structures over `String` and `ℚ`; JS number arithmetic on the small decimal
weights is modelled exactly by rational arithmetic; the external AI call is
modelled by an explicit outcome type fed to the adapter function, so the
classifier is parameterised by the adapter's result (`Option AIAnalysis`),
mirroring the `await analyzeTicketWithAI(ticket)` boundary.  All inputs in
scope are ASCII, so `String.prototype.toLowerCase` is modelled by ASCII
lowercasing.
-/

/-- A support ticket as consumed by the core (validated upstream). -/
structure Ticket where
  channel : String
  severity : String
  summary : String
deriving Repr, DecidableEq

/-- Per-category static rule profile from `CLASSIFICATION_RULES`. -/
structure RuleProfile where
  keywords : List String
  channels : List String
  severities : List String
deriving Repr, DecidableEq

/-- `CLASSIFICATION_RULES.ai_code_remediation` from `src/classifier.js`. -/
def ai_code_remediation_rules : RuleProfile :=
  { keywords := [
      "api", "timeout", "error", "bug", "crash", "exception", "database",
      "integration", "authentication", "authorization", "performance",
      "memory leak", "sql", "connection", "server error", "code",
      "deployment", "build", "compilation"]
    channels := ["api", "mobile_app", "web_app", "integration"]
    severities := ["high", "critical"] }

/-- `CLASSIFICATION_RULES.vibe_coded_troubleshooting` from `src/classifier.js`. -/
def vibe_coded_troubleshooting_rules : RuleProfile :=
  { keywords := [
      "account", "balance", "transaction", "transfer", "payment",
      "statement", "card", "pin", "password", "profile", "settings",
      "notification", "email", "sms", "verification", "kyc",
      "onboarding", "support", "help", "guidance"]
    channels := ["phone", "email", "chat", "branch"]
    severities := ["low", "medium"] }

/-- Key lookup into the `CLASSIFICATION_RULES` object (undefined keys give
`none`, matching a JS property miss). -/
def CLASSIFICATION_RULES (classification : String) : Option RuleProfile :=
  if classification = "ai_code_remediation" then some ai_code_remediation_rules
  else if classification = "vibe_coded_troubleshooting" then
    some vibe_coded_troubleshooting_rules
  else none

/-- JS `s.toLowerCase()`, restricted to ASCII (all strings in scope are
ASCII): characters `A`–`Z` are shifted to `a`–`z`, everything else is kept. -/
def jsToLowerCase (s : String) : String :=
  String.mk (s.data.map fun c =>
    if 65 ≤ c.toNat ∧ c.toNat ≤ 90 then Char.ofNat (c.toNat + 32) else c)

/-- JS `haystack.includes(needle)`: substring containment, embedded on the
character lists. -/
def strIncludes (haystack needle : String) : Bool :=
  haystack.data.tails.any (fun t => needle.data.isPrefixOf t)

/-- `calculateRuleBasedScore(ticket, classification)` from `src/classifier.js`:
keyword signal (weight 0.4, fraction of the category's keywords appearing
case-insensitively in the summary), channel signal (0.3), severity signal
(0.3); the accumulated `score` is divided by the accumulated
`maxScore = 0.4 + 0.3 + 0.3` when that is positive.  A missing rules key is
modelled as score 0 (in JS it would crash; both call sites pass a valid key). -/
def calculateRuleBasedScore (ticket : Ticket) (classification : String) : ℚ :=
  match CLASSIFICATION_RULES classification with
  | none => 0
  | some rules =>
    if (0 : ℚ) < 0.4 + 0.3 + 0.3 then
      (((rules.keywords.filter (fun keyword =>
            strIncludes (jsToLowerCase ticket.summary) keyword)).length : ℚ)
          / (rules.keywords.length : ℚ) * 0.4
        + (if rules.channels.contains ticket.channel then (0.3 : ℚ) else 0)
        + (if rules.severities.contains ticket.severity then (0.3 : ℚ) else 0))
        / (0.4 + 0.3 + 0.3)
    else 0

/-- `generateActionChecklist(decision, ticket)` from `src/classifier.js`.
The severity edits (`unshift`/`push`), the mobile-app `splice(3, 0, ...)` and
the final `slice(0, 6)` are reproduced verbatim. -/
def generateActionChecklist (decision : String) (ticket : Ticket) : List String :=
  let baseActions : List String :=
    if decision = "ai_code_remediation" then
      ["Analyze error logs and stack traces",
       "Identify root cause in codebase",
       "Generate code patch or fix",
       "Run automated tests on fix",
       "Deploy to staging environment",
       "Monitor for regression issues"]
    else
      ["Review customer account details",
       "Execute diagnostic workflow",
       "Apply standard troubleshooting steps",
       "Update customer communication",
       "Document resolution steps",
       "Schedule follow-up if needed"]
  let actions := baseActions
  let actions :=
    if ticket.severity = "critical" then
      ("Escalate to senior team immediately" :: actions) ++ ["Prepare incident report"]
    else if ticket.severity = "high" then
      actions ++ ["Monitor resolution progress closely"]
    else actions
  let actions :=
    if ticket.channel = "mobile_app" ∧ decision = "ai_code_remediation" then
      actions.take 3 ++ ["Test fix on multiple mobile platforms"] ++ actions.drop 3
    else actions
  actions.take 6

/-- The validated external assessment as returned by the adapter. -/
structure AIAnalysis where
  recommendation : String
  confidence : ℚ
  reasoning : String
deriving Repr, DecidableEq

/-- `Math.round(x * 100) / 100`: rounding to two decimal places, with
`Math.round` = round-half-up = `⌊x + 1/2⌋`, which is Mathlib's `round`. -/
def jsRound2 (q : ℚ) : ℚ := (round (q * 100) : ℚ) / 100

/-- The local `aiDecisionScore` of `classifyTicket`: the assessment's
confidence read as a score for `ai_code_remediation` (confidence if that is
the recommendation, `1 - confidence` otherwise). -/
def aiDecisionScore (a : AIAnalysis) : ℚ :=
  if a.recommendation = "ai_code_remediation" then a.confidence
  else 1 - a.confidence

/-- The local `combinedAiScore` of `classifyTicket`:
`aiDecisionScore * 0.6 + aiScore * 0.4`. -/
def combinedAiScore (t : Ticket) (a : AIAnalysis) : ℚ :=
  aiDecisionScore a * 0.6 + calculateRuleBasedScore t "ai_code_remediation" * 0.4

/-- The local `combinedVibeScore` of `classifyTicket`:
`(1 - aiDecisionScore) * 0.6 + vibeScore * 0.4`. -/
def combinedVibeScore (t : Ticket) (a : AIAnalysis) : ℚ :=
  (1 - aiDecisionScore a) * 0.6
    + calculateRuleBasedScore t "vibe_coded_troubleshooting" * 0.4

/-- The classification result assembled by `classifyTicket` (metadata fields
flattened into the structure). -/
structure ClassificationResult where
  decision : String
  reasoning : String
  confidence : ℚ
  next_actions : List String
  model_version : String
  ai_score : ℚ
  vibe_score : ℚ
  ai_analysis_used : Bool
deriving Repr, DecidableEq

/-- `classifyTicket(ticket)` from `src/classifier.js`, parameterised by the
outcome of `analyzeTicketWithAI` (`none` = adapter unavailable or failed).
The fusion weights (60 % AI, 40 % rules), the per-branch reasoning strings,
the confidence floor `Math.max(confidence, 0.5)` and the two-decimal rounding
are reproduced verbatim. -/
def classifyTicket (ticket : Ticket) (aiAnalysis : Option AIAnalysis) :
    ClassificationResult :=
  let aiScore := calculateRuleBasedScore ticket "ai_code_remediation"
  let vibeScore := calculateRuleBasedScore ticket "vibe_coded_troubleshooting"
  let fused : String × ℚ × String :=
    match aiAnalysis with
    | some a =>
      if combinedAiScore ticket a > combinedVibeScore ticket a then
        ("ai_code_remediation", combinedAiScore ticket a,
         "Technical issue detected: " ++ a.reasoning)
      else
        ("vibe_coded_troubleshooting", combinedVibeScore ticket a,
         "Operational issue requiring workflow: " ++ a.reasoning)
    | none =>
      if aiScore > vibeScore then
        ("ai_code_remediation", aiScore,
         "Technical indicators suggest code-level intervention needed")
      else
        ("vibe_coded_troubleshooting", vibeScore,
         "Operational indicators suggest workflow-based resolution")
  { decision := fused.1
    reasoning := fused.2.2
    confidence := jsRound2 (max fused.2.1 0.5)
    next_actions := generateActionChecklist fused.1 ticket
    model_version := "1.0.0"
    ai_score := aiScore
    vibe_score := vibeScore
    ai_analysis_used := aiAnalysis.isSome }

/-- All ways the external call inside `analyzeTicketWithAI`'s `try` block can
turn out, from `src/ai-helper.js`: a thrown network/timeout error, an empty
`choices[0]?.message?.content`, a `JSON.parse` failure, or a parsed object
whose three required fields may each be missing (`none`). -/
inductive AdapterOutcome where
  | networkFailure
  | requestTimeout
  | emptyResponse
  | invalidJson
  | parsed (recommendation : Option String) (confidence : Option ℚ)
      (reasoning : Option String)
deriving Repr, DecidableEq

/-- JS falsiness of the optional `recommendation` / `reasoning` fields:
missing or the empty string. -/
def falsyStr : Option String → Bool
  | none => true
  | some s => s = ""

/-- JS falsiness of the optional `confidence` field: missing or `0`. -/
def falsyNum : Option ℚ → Bool
  | none => true
  | some c => c = 0

/-- `analyzeTicketWithAI(ticket)` from `src/ai-helper.js`.  With no API key
(or the placeholder `demo-key`) it returns `null` at once; otherwise every
failure outcome of the `try` block is caught and collapsed to `null`, and a
fully-present payload is validated (falsy required field ⇒ thrown ⇒ caught ⇒
`null`) and its confidence clamped to `[0, 1]`. -/
def analyzeTicketWithAI (hasApiKey : Bool) (outcome : AdapterOutcome) :
    Option AIAnalysis :=
  if !hasApiKey then none
  else
    match outcome with
    | .parsed r c re =>
      if falsyStr r || falsyNum c || falsyStr re then none
      else
        match r, c, re with
        | some r, some c, some re =>
          some { recommendation := r, confidence := max 0 (min 1 c), reasoning := re }
        | _, _, _ => none
    | _ => none

/-- Outcomes of the external call that the spec lists as recoverable
failures: everything except a parsed payload with all required fields
present and truthy. -/
def AdapterOutcome.isFailure : AdapterOutcome → Bool
  | .parsed r c re => falsyStr r || falsyNum c || falsyStr re
  | _ => true

/-- Modelled from the spec: the per-category external score of the fusion
step, `externalScore[recommendedCategory] = confidence`,
`externalScore[otherCategory] = 1 - confidence`. -/
def externalScore (a : AIAnalysis) (c : String) : ℚ :=
  if c = a.recommendation then a.confidence else 1 - a.confidence

/-- Modelled from the spec: the fused per-category score,
`combined[c] = 0.6 × externalScore[c] + 0.4 × ruleScore[c]`. -/
def combinedScore (t : Ticket) (a : AIAnalysis) (c : String) : ℚ :=
  0.6 * externalScore a c + 0.4 * calculateRuleBasedScore t c

/-- A well-formed result in the sense of the spec's output invariant. -/
def validResult (r : ClassificationResult) : Prop :=
  (r.decision = "ai_code_remediation" ∨ r.decision = "vibe_coded_troubleshooting")
  ∧ (1 : ℚ)/2 ≤ r.confidence ∧ r.confidence ≤ 1

/-- End-to-end scenario 1 ticket of the spec's testable properties. -/
def scenario1Ticket : Ticket :=
  ⟨"api", "high", "API timeout errors causing database connection failures"⟩

/-- End-to-end scenario 2 ticket of the spec's testable properties. -/
def scenario2Ticket : Ticket :=
  ⟨"phone", "medium",
   "Customer needs help with account balance verification and password reset"⟩

/-- End-to-end scenario 3 ticket of the spec's testable properties. -/
def scenario3Ticket : Ticket := ⟨"api", "critical", "System down, database errors"⟩

/-- A ticket matching no keyword, no preferred channel and no preferred
severity of either category: both rule scores are 0. -/
def neutralTicket : Ticket := ⟨"fax", "unknown", "zzzz zzzz zzzz"⟩

/-- A concrete external assessment recommending the technical category with
full confidence. -/
def techAssessment : AIAnalysis :=
  ⟨"ai_code_remediation", 1, "external rationale"⟩

theorem calculateRuleBasedScore_eq (t : Ticket) (c : String) (p : RuleProfile)
    (hp : CLASSIFICATION_RULES c = some p) :
    calculateRuleBasedScore t c =
      ((p.keywords.filter (fun keyword =>
          strIncludes (jsToLowerCase t.summary) keyword)).length : ℚ)
        / (p.keywords.length : ℚ) * 0.4
      + (if p.channels.contains t.channel then (0.3 : ℚ) else 0)
      + (if p.severities.contains t.severity then (0.3 : ℚ) else 0) := by
  unfold calculateRuleBasedScore
  rw [hp]
  dsimp only
  rw [if_pos (by norm_num : (0 : ℚ) < 0.4 + 0.3 + 0.3)]
  have h1 : ((0.4 : ℚ) + 0.3 + 0.3) = 1 := by norm_num
  rw [h1, div_one]

theorem calculateRuleBasedScore_nonneg (t : Ticket) (c : String) :
    0 ≤ calculateRuleBasedScore t c := by
  unfold calculateRuleBasedScore
  cases h : CLASSIFICATION_RULES c with
  | none => exact le_refl 0
  | some p =>
    dsimp only
    rw [if_pos (by norm_num : (0 : ℚ) < 0.4 + 0.3 + 0.3)]
    apply div_nonneg _ (by norm_num)
    have h1 : (0 : ℚ) ≤
        ((p.keywords.filter (fun keyword =>
            strIncludes (jsToLowerCase t.summary) keyword)).length : ℚ)
          / (p.keywords.length : ℚ) * 0.4 := by
      apply mul_nonneg (div_nonneg (Nat.cast_nonneg _) (Nat.cast_nonneg _))
      norm_num
    have h2 : (0 : ℚ) ≤ (if p.channels.contains t.channel then (0.3 : ℚ) else 0) := by
      split <;> norm_num
    have h3 : (0 : ℚ) ≤ (if p.severities.contains t.severity then (0.3 : ℚ) else 0) := by
      split <;> norm_num
    linarith

theorem calculateRuleBasedScore_le_one (t : Ticket) (c : String) :
    calculateRuleBasedScore t c ≤ 1 := by
  unfold calculateRuleBasedScore
  cases h : CLASSIFICATION_RULES c with
  | none => exact zero_le_one
  | some p =>
    dsimp only
    rw [if_pos (by norm_num : (0 : ℚ) < 0.4 + 0.3 + 0.3)]
    rw [div_le_one (by norm_num : (0 : ℚ) < 0.4 + 0.3 + 0.3)]
    have h1 : ((p.keywords.filter (fun keyword =>
          strIncludes (jsToLowerCase t.summary) keyword)).length : ℚ)
          / (p.keywords.length : ℚ) ≤ 1 := by
      apply div_le_one_of_le₀
      · exact_mod_cast List.length_filter_le _ _
      · exact Nat.cast_nonneg _
    have h1' : ((p.keywords.filter (fun keyword =>
          strIncludes (jsToLowerCase t.summary) keyword)).length : ℚ)
          / (p.keywords.length : ℚ) * 0.4 ≤ 0.4 := by
      nlinarith [div_nonneg (Nat.cast_nonneg
        ((p.keywords.filter (fun keyword =>
          strIncludes (jsToLowerCase t.summary) keyword)).length) : (0:ℚ) ≤ _)
        (Nat.cast_nonneg p.keywords.length : (0:ℚ) ≤ _)]
    have h2 : (if p.channels.contains t.channel then (0.3 : ℚ) else 0) ≤ 0.3 := by
      split <;> norm_num
    have h3 : (if p.severities.contains t.severity then (0.3 : ℚ) else 0) ≤ 0.3 := by
      split <;> norm_num
    linarith

theorem classifyTicket_none_tech (t : Ticket)
    (h : calculateRuleBasedScore t "ai_code_remediation" >
      calculateRuleBasedScore t "vibe_coded_troubleshooting") :
    classifyTicket t none =
      { decision := "ai_code_remediation"
        reasoning := "Technical indicators suggest code-level intervention needed"
        confidence :=
          jsRound2 (max (calculateRuleBasedScore t "ai_code_remediation") 0.5)
        next_actions := generateActionChecklist "ai_code_remediation" t
        model_version := "1.0.0"
        ai_score := calculateRuleBasedScore t "ai_code_remediation"
        vibe_score := calculateRuleBasedScore t "vibe_coded_troubleshooting"
        ai_analysis_used := false } := by
  unfold classifyTicket
  dsimp only [Option.isSome]
  rw [if_pos h]

theorem classifyTicket_none_vibe (t : Ticket)
    (h : ¬ (calculateRuleBasedScore t "ai_code_remediation" >
      calculateRuleBasedScore t "vibe_coded_troubleshooting")) :
    classifyTicket t none =
      { decision := "vibe_coded_troubleshooting"
        reasoning := "Operational indicators suggest workflow-based resolution"
        confidence :=
          jsRound2 (max (calculateRuleBasedScore t "vibe_coded_troubleshooting") 0.5)
        next_actions := generateActionChecklist "vibe_coded_troubleshooting" t
        model_version := "1.0.0"
        ai_score := calculateRuleBasedScore t "ai_code_remediation"
        vibe_score := calculateRuleBasedScore t "vibe_coded_troubleshooting"
        ai_analysis_used := false } := by
  unfold classifyTicket
  dsimp only [Option.isSome]
  rw [if_neg h]

theorem classifyTicket_some_tech (t : Ticket) (a : AIAnalysis)
    (h : combinedAiScore t a > combinedVibeScore t a) :
    classifyTicket t (some a) =
      { decision := "ai_code_remediation"
        reasoning := "Technical issue detected: " ++ a.reasoning
        confidence := jsRound2 (max (combinedAiScore t a) 0.5)
        next_actions := generateActionChecklist "ai_code_remediation" t
        model_version := "1.0.0"
        ai_score := calculateRuleBasedScore t "ai_code_remediation"
        vibe_score := calculateRuleBasedScore t "vibe_coded_troubleshooting"
        ai_analysis_used := true } := by
  unfold classifyTicket
  dsimp only [Option.isSome]
  rw [if_pos h]

theorem classifyTicket_some_vibe (t : Ticket) (a : AIAnalysis)
    (h : ¬ (combinedAiScore t a > combinedVibeScore t a)) :
    classifyTicket t (some a) =
      { decision := "vibe_coded_troubleshooting"
        reasoning := "Operational issue requiring workflow: " ++ a.reasoning
        confidence := jsRound2 (max (combinedVibeScore t a) 0.5)
        next_actions := generateActionChecklist "vibe_coded_troubleshooting" t
        model_version := "1.0.0"
        ai_score := calculateRuleBasedScore t "ai_code_remediation"
        vibe_score := calculateRuleBasedScore t "vibe_coded_troubleshooting"
        ai_analysis_used := true } := by
  unfold classifyTicket
  dsimp only [Option.isSome]
  rw [if_neg h]

theorem jsRound2_bounds (q : ℚ) (h1 : 1/2 ≤ q) (h2 : q ≤ 1) :
    1/2 ≤ jsRound2 q ∧ jsRound2 q ≤ 1 := by
  have hlo : (50 : ℤ) ≤ round (q * 100) := by
    rw [round_eq, Int.le_floor]
    push_cast
    linarith
  have hhi : round (q * 100) ≤ 100 := by
    rw [round_eq]
    have : (⌊q * 100 + 1 / 2⌋ : ℤ) < 101 := by
      rw [Int.floor_lt]
      push_cast
      linarith
    omega
  constructor
  · rw [jsRound2, le_div_iff₀ (by norm_num : (0:ℚ) < 100)]
    calc (1:ℚ)/2 * 100 = ((50 : ℤ) : ℚ) := by norm_num
    _ ≤ (round (q * 100) : ℚ) := by exact_mod_cast hlo
  · rw [jsRound2, div_le_one (by norm_num : (0:ℚ) < 100)]
    calc (round (q * 100) : ℚ) ≤ ((100 : ℤ) : ℚ) := by exact_mod_cast hhi
    _ = 100 := by norm_num

theorem jsRound2_two_decimals (q : ℚ) : (jsRound2 q * 100).den = 1 := by
  rw [jsRound2, div_mul_cancel₀ _ (by norm_num : (100:ℚ) ≠ 0)]
  exact Rat.den_intCast _

theorem analyzeTicketWithAI_confidence_clamped (k : Bool) (o : AdapterOutcome)
    (a : AIAnalysis) (h : analyzeTicketWithAI k o = some a) :
    0 ≤ a.confidence ∧ a.confidence ≤ 1 := by
  unfold analyzeTicketWithAI at h
  split at h
  · exact absurd h (by simp)
  · cases o with
    | parsed r c re =>
      dsimp only at h
      split at h
      · exact absurd h (by simp)
      · match r, c, re with
        | some r, some c, some re =>
          simp only [Option.some.injEq] at h
          have hc : a.confidence = max 0 (min 1 c) := by rw [← h]
          constructor
          · rw [hc]; exact le_max_left 0 _
          · rw [hc]
            apply max_le (by norm_num)
            exact min_le_left 1 c
        | none, _, _ => exact absurd h (by simp)
        | some _, none, _ => exact absurd h (by simp)
        | some _, some _, none => exact absurd h (by simp)
    | networkFailure => exact absurd h (by simp)
    | requestTimeout => exact absurd h (by simp)
    | emptyResponse => exact absurd h (by simp)
    | invalidJson => exact absurd h (by simp)

theorem combinedScore_eq_code (t : Ticket) (a : AIAnalysis)
    (hrec : a.recommendation = "ai_code_remediation" ∨
      a.recommendation = "vibe_coded_troubleshooting") :
    combinedScore t a "ai_code_remediation" = combinedAiScore t a ∧
    combinedScore t a "vibe_coded_troubleshooting" = combinedVibeScore t a := by
  rcases hrec with h | h
  · unfold combinedScore combinedAiScore combinedVibeScore aiDecisionScore externalScore
    rw [h]
    rw [if_neg
      (by decide : ¬ ("vibe_coded_troubleshooting" : String) = "ai_code_remediation")]
    simp only [if_true]
    constructor <;> ring
  · unfold combinedScore combinedAiScore combinedVibeScore aiDecisionScore externalScore
    rw [h]
    rw [if_neg
      (by decide : ¬ ("ai_code_remediation" : String) = "vibe_coded_troubleshooting"),
      if_neg
      (by decide : ¬ ("vibe_coded_troubleshooting" : String) = "ai_code_remediation")]
    simp only [if_true]
    constructor <;> ring

theorem score_s1_tech :
    calculateRuleBasedScore scenario1Ticket "ai_code_remediation" = 67/95 := by
  rw [calculateRuleBasedScore_eq scenario1Ticket "ai_code_remediation"
    ai_code_remediation_rules (by decide)]
  norm_num [show (ai_code_remediation_rules.keywords.filter (fun keyword =>
      strIncludes (jsToLowerCase scenario1Ticket.summary) keyword)).length = 5
      from by decide,
    show ai_code_remediation_rules.keywords.length = 19 from by decide,
    show (scenario1Ticket.channel ∈ ai_code_remediation_rules.channels)
      from by decide,
    show (scenario1Ticket.severity ∈ ai_code_remediation_rules.severities)
      from by decide]

theorem score_s1_vibe :
    calculateRuleBasedScore scenario1Ticket "vibe_coded_troubleshooting" = 0 := by
  rw [calculateRuleBasedScore_eq scenario1Ticket "vibe_coded_troubleshooting"
    vibe_coded_troubleshooting_rules (by decide)]
  norm_num [show (vibe_coded_troubleshooting_rules.keywords.filter (fun keyword =>
      strIncludes (jsToLowerCase scenario1Ticket.summary) keyword)).length = 0
      from by decide,
    show ¬ (scenario1Ticket.channel ∈ vibe_coded_troubleshooting_rules.channels)
      from by decide,
    show ¬ (scenario1Ticket.severity ∈ vibe_coded_troubleshooting_rules.severities)
      from by decide]

theorem score_s2_tech :
    calculateRuleBasedScore scenario2Ticket "ai_code_remediation" = 0 := by
  rw [calculateRuleBasedScore_eq scenario2Ticket "ai_code_remediation"
    ai_code_remediation_rules (by decide)]
  norm_num [show (ai_code_remediation_rules.keywords.filter (fun keyword =>
      strIncludes (jsToLowerCase scenario2Ticket.summary) keyword)).length = 0
      from by decide,
    show ¬ (scenario2Ticket.channel ∈ ai_code_remediation_rules.channels)
      from by decide,
    show ¬ (scenario2Ticket.severity ∈ ai_code_remediation_rules.severities)
      from by decide]

theorem score_s2_vibe :
    calculateRuleBasedScore scenario2Ticket "vibe_coded_troubleshooting" = 7/10 := by
  rw [calculateRuleBasedScore_eq scenario2Ticket "vibe_coded_troubleshooting"
    vibe_coded_troubleshooting_rules (by decide)]
  norm_num [show (vibe_coded_troubleshooting_rules.keywords.filter (fun keyword =>
      strIncludes (jsToLowerCase scenario2Ticket.summary) keyword)).length = 5
      from by decide,
    show vibe_coded_troubleshooting_rules.keywords.length = 20 from by decide,
    show (scenario2Ticket.channel ∈ vibe_coded_troubleshooting_rules.channels)
      from by decide,
    show (scenario2Ticket.severity ∈ vibe_coded_troubleshooting_rules.severities)
      from by decide]

theorem score_s3_tech :
    calculateRuleBasedScore scenario3Ticket "ai_code_remediation" = 61/95 := by
  rw [calculateRuleBasedScore_eq scenario3Ticket "ai_code_remediation"
    ai_code_remediation_rules (by decide)]
  norm_num [show (ai_code_remediation_rules.keywords.filter (fun keyword =>
      strIncludes (jsToLowerCase scenario3Ticket.summary) keyword)).length = 2
      from by decide,
    show ai_code_remediation_rules.keywords.length = 19 from by decide,
    show (scenario3Ticket.channel ∈ ai_code_remediation_rules.channels)
      from by decide,
    show (scenario3Ticket.severity ∈ ai_code_remediation_rules.severities)
      from by decide]

theorem score_s3_vibe :
    calculateRuleBasedScore scenario3Ticket "vibe_coded_troubleshooting" = 0 := by
  rw [calculateRuleBasedScore_eq scenario3Ticket "vibe_coded_troubleshooting"
    vibe_coded_troubleshooting_rules (by decide)]
  norm_num [show (vibe_coded_troubleshooting_rules.keywords.filter (fun keyword =>
      strIncludes (jsToLowerCase scenario3Ticket.summary) keyword)).length = 0
      from by decide,
    show ¬ (scenario3Ticket.channel ∈ vibe_coded_troubleshooting_rules.channels)
      from by decide,
    show ¬ (scenario3Ticket.severity ∈ vibe_coded_troubleshooting_rules.severities)
      from by decide]

theorem score_neutral_tech :
    calculateRuleBasedScore neutralTicket "ai_code_remediation" = 0 := by
  rw [calculateRuleBasedScore_eq neutralTicket "ai_code_remediation"
    ai_code_remediation_rules (by decide)]
  norm_num [show (ai_code_remediation_rules.keywords.filter (fun keyword =>
      strIncludes (jsToLowerCase neutralTicket.summary) keyword)).length = 0
      from by decide,
    show ¬ (neutralTicket.channel ∈ ai_code_remediation_rules.channels)
      from by decide,
    show ¬ (neutralTicket.severity ∈ ai_code_remediation_rules.severities)
      from by decide]

theorem score_neutral_vibe :
    calculateRuleBasedScore neutralTicket "vibe_coded_troubleshooting" = 0 := by
  rw [calculateRuleBasedScore_eq neutralTicket "vibe_coded_troubleshooting"
    vibe_coded_troubleshooting_rules (by decide)]
  norm_num [show (vibe_coded_troubleshooting_rules.keywords.filter (fun keyword =>
      strIncludes (jsToLowerCase neutralTicket.summary) keyword)).length = 0
      from by decide,
    show ¬ (neutralTicket.channel ∈ vibe_coded_troubleshooting_rules.channels)
      from by decide,
    show ¬ (neutralTicket.severity ∈ vibe_coded_troubleshooting_rules.severities)
      from by decide]

theorem jsRound2_max_bounds (w : ℚ) (hw : w ≤ 1) :
    1/2 ≤ jsRound2 (max w 0.5) ∧ jsRound2 (max w 0.5) ≤ 1 := by
  apply jsRound2_bounds
  · calc (1:ℚ)/2 = 0.5 := by norm_num
    _ ≤ max w 0.5 := le_max_right w 0.5
  · exact max_le hw (by norm_num)

theorem aiDecisionScore_bounds (a : AIAnalysis) (h0 : 0 ≤ a.confidence)
    (h1 : a.confidence ≤ 1) : 0 ≤ aiDecisionScore a ∧ aiDecisionScore a ≤ 1 := by
  unfold aiDecisionScore
  split <;> constructor <;> linarith

theorem combinedAiScore_le_one (t : Ticket) (a : AIAnalysis)
    (h0 : 0 ≤ a.confidence) (h1 : a.confidence ≤ 1) :
    combinedAiScore t a ≤ 1 := by
  have hd := aiDecisionScore_bounds a h0 h1
  have hs := calculateRuleBasedScore_le_one t "ai_code_remediation"
  unfold combinedAiScore
  linarith [hd.2, hs]

theorem combinedVibeScore_le_one (t : Ticket) (a : AIAnalysis)
    (h0 : 0 ≤ a.confidence) (h1 : a.confidence ≤ 1) :
    combinedVibeScore t a ≤ 1 := by
  have hd := aiDecisionScore_bounds a h0 h1
  have hs := calculateRuleBasedScore_le_one t "vibe_coded_troubleshooting"
  unfold combinedVibeScore
  linarith [hd.1, hs]

theorem classify_used_eq (t : Ticket) (oa : Option AIAnalysis) :
    (classifyTicket t oa).ai_analysis_used = oa.isSome := rfl

theorem classify_valid (t : Ticket) (oa : Option AIAnalysis)
    (hconf : ∀ a, oa = some a → 0 ≤ a.confidence ∧ a.confidence ≤ 1) :
    validResult (classifyTicket t oa) ∧
    ((classifyTicket t oa).confidence * 100).den = 1 ∧
    (∃ w, (classifyTicket t oa).confidence = jsRound2 (max w 0.5)) := by
  cases oa with
  | none =>
    by_cases h : calculateRuleBasedScore t "ai_code_remediation" >
        calculateRuleBasedScore t "vibe_coded_troubleshooting"
    · rw [classifyTicket_none_tech t h]
      exact ⟨⟨Or.inl rfl,
        jsRound2_max_bounds _ (calculateRuleBasedScore_le_one t "ai_code_remediation")⟩,
        jsRound2_two_decimals _, ⟨_, rfl⟩⟩
    · rw [classifyTicket_none_vibe t h]
      exact ⟨⟨Or.inr rfl,
        jsRound2_max_bounds _
          (calculateRuleBasedScore_le_one t "vibe_coded_troubleshooting")⟩,
        jsRound2_two_decimals _, ⟨_, rfl⟩⟩
  | some a =>
    obtain ⟨h0, h1⟩ := hconf a rfl
    by_cases h : combinedAiScore t a > combinedVibeScore t a
    · rw [classifyTicket_some_tech t a h]
      exact ⟨⟨Or.inl rfl, jsRound2_max_bounds _ (combinedAiScore_le_one t a h0 h1)⟩,
        jsRound2_two_decimals _, ⟨_, rfl⟩⟩
    · rw [classifyTicket_some_vibe t a h]
      exact ⟨⟨Or.inr rfl, jsRound2_max_bounds _ (combinedVibeScore_le_one t a h0 h1)⟩,
        jsRound2_two_decimals _, ⟨_, rfl⟩⟩

/-- C1: with an external assessment present, `classifyTicket` scores each
category as `0.6 × externalScore + 0.4 × ruleScore`, where the external score
is the assessment's confidence for the recommended category and
`1 - confidence` for the other category; the category with the higher
combined score is the decision, that combined score is the pre-floor
confidence (the result's confidence is its floored, rounded image), and the
reasoning is the technical-issue / operational-issue framing prefix applied
to the assessment's rationale text. -/
theorem C1_fusion_with_assessment (t : Ticket) (a : AIAnalysis)
    (hrec : a.recommendation = "ai_code_remediation" ∨
      a.recommendation = "vibe_coded_troubleshooting") :
    (combinedScore t a "ai_code_remediation" >
        combinedScore t a "vibe_coded_troubleshooting" →
      (classifyTicket t (some a)).decision = "ai_code_remediation" ∧
      (classifyTicket t (some a)).confidence =
        jsRound2 (max (combinedScore t a "ai_code_remediation") 0.5) ∧
      (classifyTicket t (some a)).reasoning =
        "Technical issue detected: " ++ a.reasoning) ∧
    (¬ (combinedScore t a "ai_code_remediation" >
        combinedScore t a "vibe_coded_troubleshooting") →
      (classifyTicket t (some a)).decision = "vibe_coded_troubleshooting" ∧
      (classifyTicket t (some a)).confidence =
        jsRound2 (max (combinedScore t a "vibe_coded_troubleshooting") 0.5) ∧
      (classifyTicket t (some a)).reasoning =
        "Operational issue requiring workflow: " ++ a.reasoning) := by
  obtain ⟨h1, h2⟩ := combinedScore_eq_code t a hrec
  constructor
  · intro hgt
    have hgt' : combinedAiScore t a > combinedVibeScore t a := by
      rw [← h1, ← h2]; exact hgt
    rw [classifyTicket_some_tech t a hgt']
    exact ⟨rfl, by rw [h1], rfl⟩
  · intro hle
    have hle' : ¬ (combinedAiScore t a > combinedVibeScore t a) := by
      rw [← h1, ← h2]; exact hle
    rw [classifyTicket_some_vibe t a hle']
    exact ⟨rfl, by rw [h2], rfl⟩

/-- Witness for C1 at a concrete ticket and assessment: the technical
category wins and the reasoning carries the technical framing around the
rationale. -/
theorem C1_witness :
    (classifyTicket neutralTicket (some techAssessment)).decision =
      "ai_code_remediation" ∧
    (classifyTicket neutralTicket (some techAssessment)).reasoning =
      "Technical issue detected: external rationale" := by
  have h := C1_fusion_with_assessment neutralTicket techAssessment (Or.inl rfl)
  have hgt : combinedScore neutralTicket techAssessment "ai_code_remediation" >
      combinedScore neutralTicket techAssessment "vibe_coded_troubleshooting" := by
    unfold combinedScore externalScore
    rw [score_neutral_tech, score_neutral_vibe]
    norm_num [techAssessment]
    rw [if_neg
      (by decide : ¬ ("vibe_coded_troubleshooting" : String) = "ai_code_remediation")]
    norm_num
  exact ⟨(h.1 hgt).1, (h.1 hgt).2.2⟩

/-- C2: whenever the two compared per-category scores are exactly equal
(combined scores with an assessment, raw rule scores without), the strict
greater-than comparison fails and the decision is the operational category
`vibe_coded_troubleshooting`. -/
theorem C2_tie_goes_operational (t : Ticket) (oa : Option AIAnalysis)
    (h : match oa with
      | some a => combinedAiScore t a = combinedVibeScore t a
      | none => calculateRuleBasedScore t "ai_code_remediation" =
          calculateRuleBasedScore t "vibe_coded_troubleshooting") :
    (classifyTicket t oa).decision = "vibe_coded_troubleshooting" := by
  cases oa with
  | some a =>
    rw [classifyTicket_some_vibe t a (by rw [h]; exact lt_irrefl _)]
  | none =>
    rw [classifyTicket_none_vibe t (by rw [h]; exact lt_irrefl _)]

/-- Witness for C2: a ticket with both rule scores 0 and no assessment is
decided as `vibe_coded_troubleshooting`. -/
theorem C2_witness :
    (classifyTicket neutralTicket none).decision = "vibe_coded_troubleshooting" :=
  C2_tie_goes_operational neutralTicket none
    (by rw [score_neutral_tech, score_neutral_vibe])

/-- C3: with no external assessment the decision is the category with the
strictly higher rule score (operational on ties), the pre-floor confidence is
that winning rule score (the result's confidence is its floored, rounded
image), the reasoning is the fixed rule-only fallback string of the winning
category — the strings produced only on the no-assessment branch, stating the
rule-indicator basis — and the metadata records that no external analysis was
used. -/
theorem C3_rule_only_fallback (t : Ticket) :
    (calculateRuleBasedScore t "ai_code_remediation" >
        calculateRuleBasedScore t "vibe_coded_troubleshooting" →
      (classifyTicket t none).decision = "ai_code_remediation" ∧
      (classifyTicket t none).confidence =
        jsRound2 (max (calculateRuleBasedScore t "ai_code_remediation") 0.5) ∧
      (classifyTicket t none).reasoning =
        "Technical indicators suggest code-level intervention needed") ∧
    (calculateRuleBasedScore t "ai_code_remediation" ≤
        calculateRuleBasedScore t "vibe_coded_troubleshooting" →
      (classifyTicket t none).decision = "vibe_coded_troubleshooting" ∧
      (classifyTicket t none).confidence =
        jsRound2 (max (calculateRuleBasedScore t "vibe_coded_troubleshooting") 0.5) ∧
      (classifyTicket t none).reasoning =
        "Operational indicators suggest workflow-based resolution") ∧
    (classifyTicket t none).ai_analysis_used = false := by
  refine ⟨?_, ?_, ?_⟩
  · intro h
    rw [classifyTicket_none_tech t h]
    exact ⟨rfl, rfl, rfl⟩
  · intro h
    rw [classifyTicket_none_vibe t (not_lt.mpr h)]
    exact ⟨rfl, rfl, rfl⟩
  · exact classify_used_eq t none

/-- Witness for C3 at the scenario-2 ticket: the operational rule score is
the larger one, so the decision is operational and no external analysis is
recorded. -/
theorem C3_witness :
    (classifyTicket scenario2Ticket none).decision = "vibe_coded_troubleshooting" ∧
    (classifyTicket scenario2Ticket none).ai_analysis_used = false := by
  have h := C3_rule_only_fallback scenario2Ticket
  have hle : calculateRuleBasedScore scenario2Ticket "ai_code_remediation" ≤
      calculateRuleBasedScore scenario2Ticket "vibe_coded_troubleshooting" := by
    rw [score_s2_tech, score_s2_vibe]
    norm_num
  exact ⟨(h.2.1 hle).1, h.2.2⟩

/-- C4: for every ticket and every possible adapter outcome, the result's
confidence lies in `[0.5, 1]`, is a two-decimal value (100 × confidence is an
integer) obtained as `jsRound2 (max winningScore 0.5)`, and the decision is
one of exactly the two categories. -/
theorem C4_result_invariant (t : Ticket) (k : Bool) (o : AdapterOutcome) :
    validResult (classifyTicket t (analyzeTicketWithAI k o)) ∧
    ((classifyTicket t (analyzeTicketWithAI k o)).confidence * 100).den = 1 ∧
    (∃ w, (classifyTicket t (analyzeTicketWithAI k o)).confidence =
      jsRound2 (max w 0.5)) :=
  classify_valid t (analyzeTicketWithAI k o)
    (fun a ha => analyzeTicketWithAI_confidence_clamped k o a ha)

/-- C5: for every ticket, the rule score of a category equals the keyword
fraction (case-insensitive substring matches over the category's keyword
list) times 0.4, plus 0.3 for a preferred channel, plus 0.3 for a preferred
severity, and the value always lies in `[0, 1]`. -/
theorem C5_rule_score_formula (t : Ticket) (c : String) (p : RuleProfile)
    (hp : CLASSIFICATION_RULES c = some p) :
    calculateRuleBasedScore t c =
      ((p.keywords.filter (fun keyword =>
          strIncludes (jsToLowerCase t.summary) keyword)).length : ℚ)
        / (p.keywords.length : ℚ) * 0.4
      + (if p.channels.contains t.channel then (0.3 : ℚ) else 0)
      + (if p.severities.contains t.severity then (0.3 : ℚ) else 0)
    ∧ 0 ≤ calculateRuleBasedScore t c ∧ calculateRuleBasedScore t c ≤ 1 :=
  ⟨calculateRuleBasedScore_eq t c p hp, calculateRuleBasedScore_nonneg t c,
   calculateRuleBasedScore_le_one t c⟩

/-- Witness for C5 at the scenario-2 ticket and the operational category:
its rule score is in `[0, 1]`. -/
theorem C5_witness :
    0 ≤ calculateRuleBasedScore scenario2Ticket "vibe_coded_troubleshooting" ∧
    calculateRuleBasedScore scenario2Ticket "vibe_coded_troubleshooting" ≤ 1 :=
  ⟨(C5_rule_score_formula scenario2Ticket "vibe_coded_troubleshooting"
      vibe_coded_troubleshooting_rules (by decide)).2.1,
   (C5_rule_score_formula scenario2Ticket "vibe_coded_troubleshooting"
      vibe_coded_troubleshooting_rules (by decide)).2.2⟩

/-- C6: every failure mode of the external adapter (no credential, thrown
network error, timeout, empty response, non-JSON payload, missing required
field) collapses to an absent (`none`) assessment rather than an exception,
and classification then takes the rule-only branch and still yields a valid
result. -/
theorem C6_adapter_failures_absorbed (t : Ticket) (k : Bool) (o : AdapterOutcome)
    (h : k = false ∨ o.isFailure = true) :
    analyzeTicketWithAI k o = none ∧
    (classifyTicket t (analyzeTicketWithAI k o)).ai_analysis_used = false ∧
    validResult (classifyTicket t (analyzeTicketWithAI k o)) := by
  have hnone : analyzeTicketWithAI k o = none := by
    rcases h with h | h
    · subst h; rfl
    · cases k
      · rfl
      · cases o with
        | networkFailure => rfl
        | requestTimeout => rfl
        | emptyResponse => rfl
        | invalidJson => rfl
        | parsed r c re =>
          unfold AdapterOutcome.isFailure at h
          unfold analyzeTicketWithAI
          dsimp only [Bool.not_true]
          rw [if_neg (by simp), if_pos h]
  refine ⟨hnone, ?_, ?_⟩
  · rw [hnone]
    exact classify_used_eq t none
  · rw [hnone]
    exact (classify_valid t none (fun a ha => by cases ha)).1

/-- Witness for C6: a thrown network error with a configured key yields an
absent assessment and a valid rule-only classification. -/
theorem C6_witness :
    analyzeTicketWithAI true AdapterOutcome.networkFailure = none ∧
    (classifyTicket neutralTicket
      (analyzeTicketWithAI true AdapterOutcome.networkFailure)).ai_analysis_used =
      false ∧
    validResult (classifyTicket neutralTicket
      (analyzeTicketWithAI true AdapterOutcome.networkFailure)) :=
  C6_adapter_failures_absorbed neutralTicket true AdapterOutcome.networkFailure
    (Or.inr rfl)

/-- C7, evaluation at the failing input: for the scenario-3 ticket the
returned checklist starts with the escalation action, but the appended
"Prepare incident report" action has been cut off by `slice(0, 6)`, so the
list does not contain it — contradicting the spec's scenario 3 and the
repository's own test `expect(actions).toContain('Prepare incident report')`. -/
theorem C7_scenario3_eval :
    (classifyTicket scenario3Ticket none).next_actions =
      ["Escalate to senior team immediately",
       "Analyze error logs and stack traces",
       "Identify root cause in codebase",
       "Generate code patch or fix",
       "Run automated tests on fix",
       "Deploy to staging environment"] ∧
    "Prepare incident report" ∉ (classifyTicket scenario3Ticket none).next_actions := by
  have hgt : calculateRuleBasedScore scenario3Ticket "ai_code_remediation" >
      calculateRuleBasedScore scenario3Ticket "vibe_coded_troubleshooting" := by
    rw [score_s3_tech, score_s3_vibe]
    norm_num
  rw [classifyTicket_none_tech scenario3Ticket hgt]
  constructor
  · decide
  · decide

/-- C8 counterexample: at the scenario-2 ticket with no assessment the
decision is operational but the confidence is exactly 0.7, so the claimed
strict inequality `confidence > 0.7` is false. -/
theorem C8_counterexample :
    (classifyTicket scenario2Ticket none).decision = "vibe_coded_troubleshooting" ∧
    (classifyTicket scenario2Ticket none).confidence = 0.7 ∧
    ¬ ((classifyTicket scenario2Ticket none).confidence > 0.7) := by
  have hle : ¬ (calculateRuleBasedScore scenario2Ticket "ai_code_remediation" >
      calculateRuleBasedScore scenario2Ticket "vibe_coded_troubleshooting") := by
    rw [score_s2_tech, score_s2_vibe]
    norm_num
  have hc : (classifyTicket scenario2Ticket none).confidence = 0.7 := by
    rw [classifyTicket_none_vibe scenario2Ticket hle]
    show jsRound2
      (max (calculateRuleBasedScore scenario2Ticket "vibe_coded_troubleshooting") 0.5) =
      0.7
    rw [score_s2_vibe, max_eq_left (by norm_num : (0.5 : ℚ) ≤ 7/10), jsRound2,
      show ((7 : ℚ)/10 * 100) = ((70 : ℤ) : ℚ) from by norm_num, round_intCast]
    norm_num
  refine ⟨?_, hc, ?_⟩
  · rw [classifyTicket_none_vibe scenario2Ticket hle]
  · rw [hc]
    norm_num

/-- C8 amended: at the scenario-2 ticket with no assessment the decision is
`vibe_coded_troubleshooting` with confidence at least 0.7 (it is exactly
0.70, so the original strict `> 0.7` fails but `≥ 0.7` holds). -/
theorem C8_amended :
    (classifyTicket scenario2Ticket none).decision = "vibe_coded_troubleshooting" ∧
    (0.7 : ℚ) ≤ (classifyTicket scenario2Ticket none).confidence := by
  have hle : ¬ (calculateRuleBasedScore scenario2Ticket "ai_code_remediation" >
      calculateRuleBasedScore scenario2Ticket "vibe_coded_troubleshooting") := by
    rw [score_s2_tech, score_s2_vibe]
    norm_num
  rw [classifyTicket_none_vibe scenario2Ticket hle]
  refine ⟨rfl, ?_⟩
  show (0.7 : ℚ) ≤ jsRound2
    (max (calculateRuleBasedScore scenario2Ticket "vibe_coded_troubleshooting") 0.5)
  rw [score_s2_vibe, max_eq_left (by norm_num : (0.5 : ℚ) ≤ 7/10), jsRound2,
    show ((7 : ℚ)/10 * 100) = ((70 : ℤ) : ℚ) from by norm_num, round_intCast]
  norm_num

/-- C9: the two categories' preferred-channel sets are disjoint — no channel
preferred for `ai_code_remediation` is also preferred for
`vibe_coded_troubleshooting`. -/
theorem C9_channels_disjoint (ch : String)
    (h : ch ∈ ai_code_remediation_rules.channels) :
    ch ∉ vibe_coded_troubleshooting_rules.channels := by
  fin_cases h <;> decide

/-- Witness for C9 at the channel "api". -/
theorem C9_witness : "api" ∉ vibe_coded_troubleshooting_rules.channels :=
  C9_channels_disjoint "api" (by decide)

/-- C10: for either decision category and every ticket, the Action Planner
returns exactly 6 actions, and the two appended actions — "Prepare incident
report" (critical) and "Monitor resolution progress closely" (high) — never
survive the final truncation to 6 entries. -/
theorem C10_planner_truncation (d : String) (t : Ticket)
    (hd : d = "ai_code_remediation" ∨ d = "vibe_coded_troubleshooting") :
    (generateActionChecklist d t).length = 6 ∧
    "Prepare incident report" ∉ generateActionChecklist d t ∧
    "Monitor resolution progress closely" ∉ generateActionChecklist d t := by
  rcases hd with rfl | rfl <;>
  by_cases h1 : t.severity = "critical" <;>
  by_cases h2 : t.severity = "high" <;>
  by_cases h3 : t.channel = "mobile_app" <;>
  simp [generateActionChecklist, h1, h2, h3]

/-- Witness for C10 at the scenario-3 (critical) ticket and the technical
category. -/
theorem C10_witness :
    (generateActionChecklist "ai_code_remediation" scenario3Ticket).length = 6 ∧
    "Prepare incident report" ∉
      generateActionChecklist "ai_code_remediation" scenario3Ticket ∧
    "Monitor resolution progress closely" ∉
      generateActionChecklist "ai_code_remediation" scenario3Ticket :=
  C10_planner_truncation "ai_code_remediation" scenario3Ticket (Or.inl rfl)
